import Mathlib

/-!
Shallow embedding of `src/tasker/tasker.py` (giant_swarm_chroot_task).

The module downloads a tar image, extracts it into a staging directory,
launches a process chrooted into the extracted root, and wraps the spawned
(or an attached) OS process in a `Task` object offering `get_health` and
`send_signal`.

Modelling conventions:
* `pathlib.Path` values are lists of path components.
* The filesystem is the set (list) of existing regular-file paths.
* `urllib.request.urlopen` is an environment parameter `Net` mapping a URL
  to either a fetch error or a response carrying the final (post-redirect)
  URL together with the archive the body encodes.
* A tar archive is its member-name list plus a `valid` flag; `tarfile` can
  open and fully extract the archive iff `valid` is true.
* Stateful, fallible Python code returns `RunResult σ α`: the final state is
  carried on both the success and the error path, so that post-states of
  raised exceptions are observable.
* `os.chroot` mutates the calling process's global root; `subprocess.Popen`
  either succeeds (`spawnOk = true`) or raises (`spawnOk = false`), an
  environment fact the embedding takes as a parameter.
* `psutil` process handles are pids looked up in an OS process table;
  `psutil.Process(pid)`, `status()` and `send_signal()` raise
  `NoSuchProcess` when the pid is absent from the table, per psutil's
  documented behaviour. `os.wait` reaps the first available zombie child
  of the calling process, whichever it is, and blocks when there is none.
-/

namespace Tasker

/-- A filesystem path, as its list of components (`pathlib.Path`). -/
structure FPath where
  components : List String
deriving DecidableEq, Repr

/-- `pathlib.Path.joinpath` with a single name. -/
def FPath.joinpath (p : FPath) (n : String) : FPath :=
  ⟨p.components ++ [n]⟩

/-- `pathlib.Path.name`: the final path component (empty for the root). -/
def FPath.name (p : FPath) : String :=
  p.components.getLast?.getD ""

/-- `pathlib.Path.parent`: drop the final component. -/
def FPath.parent (p : FPath) : FPath :=
  ⟨p.components.dropLast⟩

/-- Split a character list at `/` characters (`str.split('/')` on the
component level; `acc` holds the current component reversed). -/
def splitSlashAux : List Char → List Char → List String
  | [], acc => [String.mk acc.reverse]
  | c :: cs, acc =>
    if c = '/' then String.mk acc.reverse :: splitSlashAux cs []
    else splitSlashAux cs (c :: acc)

/-- `pathlib.Path(s)` applied to a path string: split on `/`, dropping empty
components (leading slash, duplicate slashes, trailing slash). -/
def pathOfString (s : String) : FPath :=
  ⟨(splitSlashAux s.toList []).filter (fun c => c ≠ "")⟩

/-- `pathlib.PurePath.stem` of a file name: `name[:i]` where `i` is the index
of the last dot, provided `0 < i < len(name) - 1`; otherwise the whole name
(CPython's definition). -/
def pyStem (name : String) : String :=
  let cs := name.toList
  match cs.reverse.findIdx? (fun c => c == '.') with
  | none => name
  | some j =>
    let i := cs.length - 1 - j
    if 0 < i ∧ i < cs.length - 1 then String.mk (cs.take i) else name

/-- A URL, already split into the pieces `urllib.parse.urlparse` returns;
only the path component is consumed by the code under test. -/
structure Url where
  scheme : String
  netloc : String
  path : String
deriving DecidableEq, Repr

/-- A tar archive: its member names, and whether `tarfile` can open and
fully extract it (`valid = false` models a corrupt/unsupported archive). -/
structure Archive where
  entries : List String
  valid : Bool
deriving DecidableEq, Repr

/-- The object `urllib.request.urlopen` returns: `url` is the final URL
after any redirects, `body` the archive the response bytes encode. -/
structure HttpResponse where
  url : Url
  body : Archive
deriving DecidableEq, Repr

/-- The network environment: what `urllib.request.urlopen` does per URL
(`Except Unit` error = `urllib.error.URLError`). -/
def Net : Type := Url → Except Unit HttpResponse

/-- The staging filesystem: the list of existing regular-file paths. -/
structure FSState where
  files : List FPath
deriving DecidableEq, Repr

/-- `open(p, 'wb')` followed by a full write: the file exists afterwards. -/
def FSState.writeFile (fs : FSState) (p : FPath) : FSState :=
  ⟨p :: fs.files⟩

/-- `Path.unlink`: the file no longer exists afterwards. -/
def FSState.unlink (fs : FSState) (p : FPath) : FSState :=
  ⟨fs.files.filter (fun q => q ≠ p)⟩

/-- The exceptions the embedded code can raise. -/
inductive PyError where
  /-- `urllib.error.URLError`: fetch failure. -/
  | urlError
  /-- `tarfile.TarError` / `OSError` while opening or extracting. -/
  | tarError
  /-- `OSError` raised by `subprocess.Popen`. -/
  | spawnError
  /-- `psutil.NoSuchProcess`. -/
  | noSuchProcess
  /-- `os.wait` with no reapable child: the call blocks (no zombie child)
  or raises `ChildProcessError` (no children at all); the embedding folds
  both non-returning outcomes into this marker. -/
  | waitBlocked
deriving DecidableEq, Repr

/-- Outcome of running a stateful, fallible piece of Python: the final
state is observable on the success and on the exception path. -/
inductive RunResult (σ : Type) (α : Type) where
  | ok (s : σ) (v : α)
  | err (s : σ) (e : PyError)
deriving DecidableEq, Repr

/-- `tarfile.extractall(dir)`: create `dir/e` for every member `e`. -/
def extractall (fs : FSState) (dir : FPath) (ar : Archive) : FSState :=
  ar.entries.foldl (fun acc e => acc.writeFile (dir.joinpath e)) fs

/-- `_create_filesystem_dir(image_url, download_path)` (tasker.py:16-41).

`net` is the `urlopen` environment; `uuidHex` the value `uuid.uuid4().hex`
produced by the random source during this call.  Steps, in source order:
urlopen; derive the staged file name from the *final* response URL's path;
write the body to `download_path/<name>`; pick the extraction directory
`download_path/<stem><uuidHex>`; open and extract the tar (raising
`tarError` when the archive is not a readable tar, with the staged file left
in place); unlink the staged file; return the extraction directory. -/
def createFilesystemDir (net : Net) (uuidHex : String)
    (image_url : Url) (download_path : FPath) (fs : FSState) :
    RunResult FSState FPath :=
  match net image_url with
  | .error _ => .err fs .urlError
  | .ok image =>
    let image_path := pathOfString image.url.path
    let tar_file := download_path.joinpath image_path.name
    let fs1 := fs.writeFile tar_file
    let unique_id := uuidHex
    let filesystem_path := download_path.joinpath (pyStem image_path.name ++ unique_id)
    if image.body.valid then
      let fs2 := extractall fs1 filesystem_path image.body
      let fs3 := fs2.unlink tar_file
      .ok fs3 filesystem_path
    else
      .err fs1 .tarError

/-- Where a spawned child's stdout/stderr goes.  `tasker.py` always passes
`subprocess.PIPE`; no other sink can be produced by the source, the
constructor `handle` exists so "always a pipe" is a contentful statement. -/
inductive Sink where
  | pipe
  | handle (p : FPath)
deriving DecidableEq, Repr

/-- A process spawned by `subprocess.Popen`, with the root directory it
inherited at the moment of spawn and its output sinks. -/
structure Child where
  pid : Nat
  root : FPath
  args : List String
  stdout : Sink
  stderr : Sink
deriving DecidableEq, Repr

/-- The chroot-relevant state of the calling (tasker) process: its current
global root directory, the children spawned so far, and the next free pid. -/
structure ProcState where
  root : FPath
  children : List Child
  nextPid : Nat
deriving DecidableEq, Repr

/-- `_run_chroot_process(filesystem, args)` (tasker.py:44-66), one `os` call
at a time, in source order:
`real_root = os.open("/", O_RDONLY)` captures the current root;
`os.chroot(filesystem)` repoints the calling process's global root;
`subprocess.Popen(args, stdout=PIPE, stderr=PIPE)` spawns a child that
inherits the root current at that moment, or raises (`spawnOk = false`) —
the function has no try/finally, so on a raise the remaining lines never
run and the root stays repointed; `os.fchdir(real_root); os.chroot(".")`
restores the saved root; `os.close(real_root)` drops the handle. -/
def runChrootProcess (spawnOk : Bool) (filesystem : FPath) (args : List String)
    (s : ProcState) : RunResult ProcState Child :=
  let real_root := s.root
  let s1 : ProcState := { s with root := filesystem }
  if spawnOk then
    let process : Child :=
      { pid := s1.nextPid, root := s1.root, args := args
        stdout := .pipe, stderr := .pipe }
    let s2 : ProcState :=
      { s1 with children := s1.children ++ [process], nextPid := s1.nextPid + 1 }
    let s3 : ProcState := { s2 with root := real_root }
    .ok s3 process
  else
    .err s1 .spawnError

/-! ### Interleaving model of two concurrent launcher invocations

`os.chroot` mutates one process-global root shared by every thread of the
calling process, and `_run_chroot_process` takes no lock.  Each invocation
is the straight-line sequence of the four root-touching actions of
tasker.py:56-64; a schedule says which invocation performs its next action
at each step. -/

/-- Thread-local view of one in-flight `_run_chroot_process` invocation:
its `filesystem` argument, the saved `real_root` handle once `os.open` ran,
the root its child inherited once `Popen` ran, and a program counter over
the four actions (0 = `os.open`, 1 = `os.chroot(filesystem)`, 2 = `Popen`,
3 = `fchdir`+`chroot(".")` restore, 4 = done). -/
structure LaunchLocal where
  filesystem : FPath
  savedRoot : Option FPath
  childRoot : Option FPath
  pc : Nat
deriving DecidableEq, Repr

/-- One launcher invocation performs its next action against the shared
global root; returns the new shared root and its new local state. -/
def launchStep (root : FPath) (l : LaunchLocal) : FPath × LaunchLocal :=
  match l.pc with
  | 0 => (root, { l with savedRoot := some root, pc := 1 })
  | 1 => (l.filesystem, { l with pc := 2 })
  | 2 => (root, { l with childRoot := some root, pc := 3 })
  | 3 => (l.savedRoot.getD root, { l with pc := 4 })
  | _ => (root, l)

/-- Two concurrent launcher invocations sharing the process-global root. -/
structure TwoLaunches where
  root : FPath
  a : LaunchLocal
  b : LaunchLocal
deriving DecidableEq, Repr

/-- Run one scheduler choice: `true` advances invocation `a`, `false`
advances invocation `b`. -/
def stepTwo (s : TwoLaunches) (choice : Bool) : TwoLaunches :=
  if choice then
    let (r, a') := launchStep s.root s.a
    { s with root := r, a := a' }
  else
    let (r, b') := launchStep s.root s.b
    { s with root := r, b := b' }

/-- Run a whole schedule. -/
def runSchedule (s : TwoLaunches) (sched : List Bool) : TwoLaunches :=
  sched.foldl stepTwo s

/-- Fresh invocation of the launcher on `filesystem`. -/
def LaunchLocal.start (filesystem : FPath) : LaunchLocal :=
  { filesystem := filesystem, savedRoot := none, childRoot := none, pc := 0 }

/-! ### psutil / OS process table -/

/-- One entry of the OS process table as psutil sees it.  A terminated but
unreaped child is present with `status = "zombie"`; a reaped or never
existing pid has no entry. -/
structure OsProc where
  pid : Nat
  status : String
  /-- whether this process is a child of the calling (tasker) process -/
  isChild : Bool
  /-- signals delivered to it so far -/
  signals : List Int
deriving DecidableEq, Repr

/-- The OS process table. -/
structure OsState where
  procs : List OsProc
deriving DecidableEq, Repr

def OsState.find? (os : OsState) (pid : Nat) : Option OsProc :=
  os.procs.find? (fun p => p.pid == pid)

/-- `psutil.Process(pid)`: raises `NoSuchProcess` when no process with that
pid exists (psutil validates the pid in the constructor); otherwise returns
a handle, which for our purposes is the pid. -/
def psutilProcessInit (os : OsState) (pid : Nat) : Except PyError Nat :=
  match os.find? pid with
  | some _ => .ok pid
  | none => .error .noSuchProcess

/-- `psutil.Process.status()`: the status string, or `NoSuchProcess` when
the process is gone. -/
def psutilStatus (os : OsState) (pid : Nat) : Except PyError String :=
  match os.find? pid with
  | some p => .ok p.status
  | none => .error .noSuchProcess

/-- `psutil.Process.send_signal(sig)`: `NoSuchProcess` when the process is
gone; otherwise the signal is delivered.  Whether the target terminates on
delivery (becoming a zombie awaiting reap) depends on the signal and the
target's handlers — an OS-environment fact the embedding takes as the
parameter `fatal`. -/
def psutilSendSignal (os : OsState) (pid : Nat) (sig : Int) (fatal : Bool) :
    Except PyError OsState :=
  match os.find? pid with
  | some _ =>
    .ok ⟨os.procs.map (fun p =>
      if p.pid == pid then
        { p with signals := p.signals ++ [sig]
                 status := if fatal then "zombie" else p.status }
      else p)⟩
  | none => .error .noSuchProcess

/-- `os.wait()`: reap whichever child is available — the first zombie child
of the calling process in table order — removing its table entry and
returning its pid; with no reapable child the call does not return
(it blocks, or raises `ChildProcessError` when there are no children). -/
def osWait (os : OsState) : Except PyError (OsState × Nat) :=
  match os.procs.find? (fun p => p.isChild && p.status == "zombie") with
  | some p => .ok (⟨os.procs.filter (fun q => q.pid ≠ p.pid)⟩, p.pid)
  | none => .error .waitBlocked

/-! ### The `Task` class -/

/-- A `Task` object: `id` (tasker.py's `self.id`) and the pid wrapped by
`self._process`, the `psutil.Process` handle. -/
structure TaskObj where
  id : Nat
  procPid : Nat
deriving DecidableEq, Repr

/-- The dict `get_health` returns: `{'exists': ..., 'status': ...}`. -/
structure Health where
  «exists» : Bool
  status : Option String
deriving DecidableEq, Repr

/-- `Task.get_health` (tasker.py:74-84): try
`{'exists': True, 'status': self._process.status()}`, and on
`psutil.NoSuchProcess` — the only exception `status()` raises here —
return `{'exists': False, 'status': None}`.  Total: it never raises. -/
def Task.get_health (t : TaskObj) (os : OsState) : Health :=
  match psutilStatus os t.procPid with
  | .ok s => { «exists» := true, status := some s }
  | .error _ => { «exists» := false, status := none }

/-- `Task.send_signal` (tasker.py:86-93): `self._process.send_signal(signal)`
— raising `NoSuchProcess` when the process has vanished — then `os.wait()`,
whose outcome is whatever child the OS hands back first. -/
def Task.send_signal (t : TaskObj) (sig : Int) (fatal : Bool) (os : OsState) :
    RunResult OsState Unit :=
  match psutilSendSignal os t.procPid sig fatal with
  | .error e => .err os e
  | .ok os1 =>
    match osWait os1 with
    | .ok (os2, _) => .ok os2 ()
    | .error e => .err os1 e

/-- The attach branch of `Task.__init__` (tasker.py:110-112):
`self._process = psutil.Process(existing_task); self.id = existing_task`.
It touches neither the filesystem nor the process table (the state is not
even returned: there is nothing to update), but `psutil.Process` itself
raises `NoSuchProcess` for a pid with no table entry. -/
def Task.initAttach (os : OsState) (existing_task : Nat) : Except PyError TaskObj :=
  match psutilProcessInit os existing_task with
  | .ok h => .ok { id := existing_task, procPid := h }
  | .error e => .error e

/-- Combined mutable state the create branch of `Task.__init__` touches. -/
structure World where
  fs : FSState
  proc : ProcState
deriving DecidableEq, Repr

/-- The create branch of `Task.__init__` (tasker.py:113-125):
`_create_filesystem_dir` then `_run_chroot_process`, then
`self.id = process.pid; self._process = psutil.Process(self.id)`.
Note `Task.__init__` has no stdout/stderr parameters to forward. -/
def Task.initCreate (net : Net) (uuidHex : String) (spawnOk : Bool)
    (image_url : Url) (args : List String) (download_path : FPath)
    (w : World) : RunResult World TaskObj :=
  match createFilesystemDir net uuidHex image_url download_path w.fs with
  | .err fs' e => .err { w with fs := fs' } e
  | .ok fs' filesystem =>
    match runChrootProcess spawnOk filesystem args w.proc with
    | .err ps e => .err { fs := fs', proc := ps } e
    | .ok ps process =>
      .ok { fs := fs', proc := ps } { id := process.pid, procPid := process.pid }

/-! ### Observers on run results -/

/-- The final state, on the success as well as on the exception path. -/
def RunResult.state {σ α : Type} : RunResult σ α → σ
  | .ok s _ => s
  | .err s _ => s

/-- Whether the run returned normally. -/
def RunResult.isOk {σ α : Type} : RunResult σ α → Bool
  | .ok _ _ => true
  | .err _ _ => false

/-- The exception raised, if any. -/
def RunResult.error? {σ α : Type} : RunResult σ α → Option PyError
  | .ok _ _ => none
  | .err _ e => some e

/-- The returned value, if the run returned normally. -/
def RunResult.value? {σ α : Type} : RunResult σ α → Option α
  | .ok _ v => some v
  | .err _ _ => none

/-- The path of the staged archive file: the download directory joined with
the base name of the final (post-redirect) response URL's path — the
`tar_file` of tasker.py:31. -/
def stagedArchivePath (resp : HttpResponse) (download_path : FPath) : FPath :=
  download_path.joinpath (pathOfString resp.url.path).name

/-- The extraction directory `_create_filesystem_dir` picks: stem of the
staged archive's name, suffixed with the uuid hex — tasker.py:36. -/
def extractionDir (resp : HttpResponse) (download_path : FPath) (uuidHex : String) : FPath :=
  download_path.joinpath (pyStem (pathOfString resp.url.path).name ++ uuidHex)

/-- All members of `ar` exist under directory `dir` in filesystem `fs`. -/
def FSState.containsArchive (fs : FSState) (dir : FPath) (ar : Archive) : Bool :=
  ar.entries.all (fun e => fs.files.contains (dir.joinpath e))

/-! ### Concrete fixtures (shared by several witnesses) -/

/-- The requested image URL. -/
def urlOrig : Url := ⟨"http", "server", "/images/filesystem.tar"⟩

/-- The final URL after a redirect: a different host and file name. -/
def urlFinal : Url := ⟨"http", "cdn", "/real/rootfs.tar"⟩

/-- A readable two-member archive. -/
def archGood : Archive := ⟨["hello.txt", "etc"], true⟩

/-- An archive `tarfile` cannot extract. -/
def archBad : Archive := ⟨["x"], false⟩

/-- Redirecting network serving the readable archive. -/
def netGood : Net := fun _ => .ok ⟨urlFinal, archGood⟩

/-- Redirecting network serving the broken archive. -/
def netBad : Net := fun _ => .ok ⟨urlFinal, archBad⟩

/-- A staging directory. -/
def dpClient : FPath := ⟨["client"]⟩

/-! ### Helper lemmas -/

/-- Paths with a different number of components differ. -/
theorem FPath.ne_of_length_ne {p q : FPath}
    (h : p.components.length ≠ q.components.length) : p ≠ q := by
  intro hpq
  exact h (congrArg (fun r => r.components.length) hpq)

/-- `++` on `String` cancels on the left. -/
theorem string_append_cancel_left {s a b : String} (h : s ++ a = s ++ b) :
    a = b := by
  have hd := congrArg String.data h
  simp only [String.data_append] at hd
  exact String.ext (List.append_cancel_left hd)

/-- Joining the same directory with different names gives different paths. -/
theorem FPath.joinpath_ne_of_ne {d : FPath} {a b : String} (h : a ≠ b) :
    d.joinpath a ≠ d.joinpath b := by
  intro hab
  apply h
  have hc := congrArg FPath.components hab
  simp only [FPath.joinpath] at hc
  exact (List.cons.inj (List.append_cancel_left hc)).1

/-- What `extractall` writes: one file per member, prepended to the files
already present. -/
theorem extractall_files (fs : FSState) (d : FPath) (es : List String) (v : Bool) :
    (extractall fs d ⟨es, v⟩).files =
      (es.map (fun e => d.joinpath e)).reverse ++ fs.files := by
  induction es generalizing fs with
  | nil => rfl
  | cons e es ih =>
    simp only [extractall, List.foldl_cons] at *
    rw [ih (fs.writeFile (d.joinpath e))]
    simp [FSState.writeFile, List.append_assoc]

/-- Files already present survive `extractall`. -/
theorem mem_extractall_of_mem {fs : FSState} {q : FPath} (d : FPath)
    (ar : Archive) (h : q ∈ fs.files) : q ∈ (extractall fs d ar).files := by
  obtain ⟨es, v⟩ := ar
  rw [extractall_files]
  exact List.mem_append_right _ h

/-- Every member of the archive exists under the target directory after
`extractall`. -/
theorem mem_extractall_self {e : String} (fs : FSState) (d : FPath)
    {ar : Archive} (h : e ∈ ar.entries) :
    d.joinpath e ∈ (extractall fs d ar).files := by
  obtain ⟨es, v⟩ := ar
  rw [extractall_files]
  exact List.mem_append_left _ (List.mem_reverse.mpr (List.mem_map_of_mem _ h))

/-- The unlinked path is gone afterwards. -/
theorem not_mem_unlink (fs : FSState) (p : FPath) : p ∉ (fs.unlink p).files := by
  intro h
  have := (List.mem_filter.mp h).2
  simp at this

/-- Other paths survive `unlink`. -/
theorem mem_unlink_of_mem {fs : FSState} {q p : FPath} (hq : q ∈ fs.files)
    (hne : q ≠ p) : q ∈ (fs.unlink p).files :=
  List.mem_filter.mpr ⟨hq, by simpa using hne⟩

/-- `find?` commutes with a `filter` that keeps every possible match. -/
theorem find?_filter_of_imp {α : Type} (l : List α) (p q : α → Bool)
    (h : ∀ x, p x = true → q x = true) :
    (l.filter q).find? p = l.find? p := by
  induction l with
  | nil => rfl
  | cons x xs ih =>
    by_cases hp : p x = true
    · rw [List.filter_cons, h x hp]
      simp [List.find?_cons, hp, ih]
    · rw [List.filter_cons]
      by_cases hq : q x = true
      · simp only [hq, if_true]
        simp only [List.find?_cons, Bool.not_eq_true] at *
        simp [hp, ih]
      · simp only [hq, Bool.false_eq_true, if_false]
        rw [ih, List.find?_cons]
        simp [hp]

/-! ### Claim theorems -/

/-- C1 counterexample. The claim says the original root is restored whether
the spawn succeeds or raises.  It is false: `_run_chroot_process` has no
try/finally, so when `subprocess.Popen` raises after `os.chroot(filesystem)`,
the exception propagates with the calling process's root still pointing at
the jail filesystem — here a launch from root `/` into `jail` fails to spawn
and leaves the root at `jail`, not `/`. -/
theorem C1_counterexample :
    runChrootProcess false ⟨["jail"]⟩ ["touch", "/x"] ⟨⟨[]⟩, [], 50⟩ =
      .err ⟨⟨["jail"]⟩, [], 50⟩ .spawnError ∧
    FPath.mk ["jail"] ≠ FPath.mk [] := by
  constructor
  · rfl
  · decide

/-- C1 (amended): when the spawn succeeds, `_run_chroot_process` restores the
calling process's original root before returning (and the child inherited
the jail root); nothing in the function catches exceptions, so a failure to
restore would propagate.  But when the spawn raises, the error propagates
with the root still pointing at the jail filesystem — the root is *not*
restored on the failure path. -/
theorem C1_root_restored_only_on_success (filesystem : FPath)
    (args : List String) (s : ProcState) :
    ((runChrootProcess true filesystem args s).isOk = true ∧
     (runChrootProcess true filesystem args s).state.root = s.root ∧
     (runChrootProcess true filesystem args s).value?.map Child.root =
       some filesystem) ∧
    ((runChrootProcess false filesystem args s).error? = some .spawnError ∧
     (runChrootProcess false filesystem args s).state.root = filesystem) := by
  simp [runChrootProcess, RunResult.isOk, RunResult.state, RunResult.value?,
    RunResult.error?]

/-- C9 counterexample. The claim says concurrent launcher invocations are
serialized so that no launch can spawn into another launch's temporary
root.  `_run_chroot_process` takes no lock, so the four root operations of
two invocations can interleave freely: in the schedule below, launch `a`
chroots to `fsA`, launch `b` then saves `fsA` as its "original" root and
chroots to `fsB`, and `a`'s spawn then inherits `fsB` — another launch's
temporary root. -/
theorem C9_counterexample :
    (runSchedule ⟨⟨[]⟩, LaunchLocal.start ⟨["fsA"]⟩, LaunchLocal.start ⟨["fsB"]⟩⟩
        [true, true, false, false, true]).a.childRoot = some ⟨["fsB"]⟩ ∧
    FPath.mk ["fsB"] ≠ FPath.mk ["fsA"] := by
  constructor
  · simp [runSchedule, stepTwo, launchStep, LaunchLocal.start]
  · decide

/-- C9 (amended): the launcher itself provides no mutual exclusion, so the
serialization the claim asserts only holds when the callers happen to run
the launchers one after the other: under a serialized schedule — all four
root operations of one invocation before the other begins — each launch's
child is spawned into that launch's own filesystem and the shared root ends
restored to the original.  (Unserialized interleavings violate the
property, as the counterexample shows.) -/
theorem C9_serialized_schedules_only (r0 fsA fsB : FPath) :
    ((runSchedule ⟨r0, LaunchLocal.start fsA, LaunchLocal.start fsB⟩
        [true, true, true, true, false, false, false, false]).a.childRoot =
      some fsA) ∧
    ((runSchedule ⟨r0, LaunchLocal.start fsA, LaunchLocal.start fsB⟩
        [true, true, true, true, false, false, false, false]).b.childRoot =
      some fsB) ∧
    ((runSchedule ⟨r0, LaunchLocal.start fsA, LaunchLocal.start fsB⟩
        [true, true, true, true, false, false, false, false]).root = r0) := by
  refine ⟨?_, ?_, ?_⟩ <;> simp [runSchedule, stepTwo, launchStep, LaunchLocal.start]

/-- C3: `get_health` is a total function — a process-not-found condition is
caught and encoded as `{'exists': False, 'status': None}`, and for a live
process the result is `{'exists': True, 'status': <its status>}`. -/
theorem C3_get_health_never_raises (t : TaskObj) (os : OsState) :
    (os.find? t.procPid = none →
      Task.get_health t os = { «exists» := false, status := none }) ∧
    ((os.find? t.procPid).isSome = true →
      Task.get_health t os =
        { «exists» := true, status := (os.find? t.procPid).map OsProc.status }) := by
  cases h : os.find? t.procPid <;>
    simp [Task.get_health, psutilStatus, h]

/-- C3 witness: a vanished pid yields `{exists: false, status: none}`, a
live sleeping process `{exists: true, status: "sleeping"}`. -/
theorem C3_witness :
    Task.get_health ⟨5, 5⟩ ⟨[]⟩ = { «exists» := false, status := none } ∧
    Task.get_health ⟨7, 7⟩ ⟨[⟨7, "sleeping", true, []⟩]⟩ =
      { «exists» := true, status := some "sleeping" } := by
  constructor
  · exact (C3_get_health_never_raises ⟨5, 5⟩ ⟨[]⟩).1 rfl
  · exact (C3_get_health_never_raises ⟨7, 7⟩ ⟨[⟨7, "sleeping", true, []⟩]⟩).2 rfl

/-- C10: every `get_health` result satisfies the invariant that the
`exists` field is true exactly when the `status` field is not `None`. -/
theorem C10_exists_iff_some_status (t : TaskObj) (os : OsState) :
    (Task.get_health t os).«exists» = ((Task.get_health t os).status).isSome := by
  cases h : os.find? t.procPid <;>
    simp [Task.get_health, psutilStatus, h]

/-- C4 counterexample. The claim says attaching never fails even for a
non-existent identifier.  It is false: the attach branch runs
`psutil.Process(existing_task)`, and psutil validates the pid in its
constructor — attaching to pid 42 of an empty process table raises
`NoSuchProcess` eagerly. -/
theorem C4_counterexample :
    Task.initAttach ⟨[]⟩ 42 = .error .noSuchProcess := rfl

/-- C4 (amended): constructing a `Task` with `existing_task` performs no
side effects (it only wraps the identifier — no process is spawned and
neither the filesystem nor the process table is touched, which is why the
embedding returns no updated state), but existence *is* validated eagerly
by the `psutil.Process` constructor: for a live pid the attach succeeds and
wraps it, for a non-existent pid it raises `NoSuchProcess` immediately. -/
theorem C4_attach_validates_eagerly (os : OsState) (pid : Nat) :
    ((os.find? pid).isSome = true →
      Task.initAttach os pid = .ok { id := pid, procPid := pid }) ∧
    (os.find? pid = none →
      Task.initAttach os pid = .error .noSuchProcess) := by
  cases h : os.find? pid <;>
    simp [Task.initAttach, psutilProcessInit, h]

/-- C4 witness: attaching to live pid 9 succeeds and wraps it; attaching to
absent pid 3 of the same table raises. -/
theorem C4_witness :
    Task.initAttach ⟨[⟨9, "running", false, []⟩]⟩ 9 = .ok { id := 9, procPid := 9 } ∧
    Task.initAttach ⟨[⟨9, "running", false, []⟩]⟩ 3 = .error .noSuchProcess := by
  constructor
  · exact (C4_attach_validates_eagerly ⟨[⟨9, "running", false, []⟩]⟩ 9).1 rfl
  · exact (C4_attach_validates_eagerly ⟨[⟨9, "running", false, []⟩]⟩ 3).2 rfl

/-- C6: when the task's process has vanished from the process table,
`send_signal` raises `psutil.NoSuchProcess` — the explicit
process-not-found error — leaving the table unchanged: it neither silently
succeeds as a no-op nor retries (the one delivery attempt is the only
one). -/
theorem C6_send_signal_raises_when_vanished (t : TaskObj) (sig : Int)
    (fatal : Bool) (os : OsState) (h : os.find? t.procPid = none) :
    Task.send_signal t sig fatal os = .err os .noSuchProcess := by
  unfold Task.send_signal psutilSendSignal
  rw [h]

/-- C6 witness: signaling a task whose pid 5 is gone (only pid 7 exists)
raises `NoSuchProcess` with the table unchanged. -/
theorem C6_witness :
    Task.send_signal ⟨5, 5⟩ 2 true ⟨[⟨7, "running", true, []⟩]⟩ =
      .err ⟨[⟨7, "running", true, []⟩]⟩ .noSuchProcess :=
  C6_send_signal_raises_when_vanished ⟨5, 5⟩ 2 true ⟨[⟨7, "running", true, []⟩]⟩ rfl

/-- C7 counterexample. The claim says `send_signal` reaps *the task's own*
process and blocks until that process is reaped.  It is false: the reap
step is a bare `os.wait()`, which reaps whichever child is available.
Here the task is pid 9; an unrelated child pid 7 is already a zombie, so
after delivering a fatal signal to 9 the `os.wait()` reaps 7 and the call
returns with the task's process still sitting in the table as an unreaped
zombie. -/
theorem C7_counterexample :
    Task.send_signal ⟨9, 9⟩ 9 true
        ⟨[⟨7, "zombie", true, []⟩, ⟨9, "sleeping", true, []⟩]⟩ =
      .ok ⟨[⟨9, "zombie", true, [9]⟩]⟩ () ∧
    OsState.find? ⟨[⟨9, "zombie", true, [9]⟩]⟩ 9 = some ⟨9, "zombie", true, [9]⟩ := by
  constructor
  · rfl
  · rfl

/-- C7 (amended): `send_signal` delivers the given signal to the task's
process and then performs one `os.wait()`, which blocks until *some* child
of the calling process is reaped and reaps the first available one — not
necessarily the task's process.  When another child is already reapable,
the call returns with that child reaped and the task's own process entry
untouched (an unreaped zombie entry for the task can remain). -/
theorem C7_send_signal_reaps_arbitrary_child (t : TaskObj) (sig : Int)
    (fatal : Bool) (os os1 : OsState) (z pt : OsProc)
    (h1 : psutilSendSignal os t.procPid sig fatal = .ok os1)
    (hz : os1.procs.find? (fun q => q.isChild && q.status == "zombie") = some z)
    (hne : z.pid ≠ t.procPid)
    (ht : os1.find? t.procPid = some pt) :
    Task.send_signal t sig fatal os =
      .ok ⟨os1.procs.filter (fun q => q.pid ≠ z.pid)⟩ () ∧
    OsState.find? ⟨os1.procs.filter (fun q => q.pid ≠ z.pid)⟩ t.procPid = some pt := by
  constructor
  · unfold Task.send_signal
    rw [h1]
    simp only [osWait, hz]
  · unfold OsState.find? at ht ⊢
    rw [find?_filter_of_imp _ _ _ ?_]
    · exact ht
    · intro x hx
      have hxe : x.pid = t.procPid := by simpa using hx
      have hzz : t.procPid ≠ z.pid := fun hh => hne hh.symm
      simpa [hxe] using hzz

/-- C7 witness: the amended behaviour at the counterexample's state — the
unrelated zombie child 7 is reaped, the signalled task process 9 stays. -/
theorem C7_witness :
    Task.send_signal ⟨9, 9⟩ 9 true
        ⟨[⟨7, "zombie", true, []⟩, ⟨9, "sleeping", true, []⟩]⟩ =
      .ok ⟨[⟨9, "zombie", true, [9]⟩]⟩ () ∧
    OsState.find? ⟨[⟨9, "zombie", true, [9]⟩]⟩ 9 = some ⟨9, "zombie", true, [9]⟩ := by
  have h := C7_send_signal_reaps_arbitrary_child ⟨9, 9⟩ 9 true
      ⟨[⟨7, "zombie", true, []⟩, ⟨9, "sleeping", true, []⟩]⟩
      ⟨[⟨7, "zombie", true, []⟩, ⟨9, "zombie", true, [9]⟩]⟩
      ⟨7, "zombie", true, []⟩ ⟨9, "zombie", true, [9]⟩ rfl rfl (by decide) rfl
  exact h

/-- C8: the spawned process's output sinks are not selectable — whatever
the inputs, `_run_chroot_process` spawns with `stdout=subprocess.PIPE,
stderr=subprocess.PIPE` (its signature has no sink parameters to thread
through), and every child a `Task.__init__` create run leaves in the
process state is piped on both streams.  Its own test-suite, by contrast,
calls `_run_chroot_process(..., stdout=f)` and
`Task(..., stdout=..., stderr=...)`. -/
theorem C8_output_sinks_not_selectable (net : Net) (uuidHex : String)
    (spawnOk : Bool) (image_url : Url) (filesystem : FPath)
    (args : List String) (s : ProcState) (download_path : FPath) (w : World)
    (hw : w.proc.children = []) :
    ((runChrootProcess true filesystem args s).value?.map
        (fun c => (c.stdout, c.stderr)) = some (Sink.pipe, Sink.pipe)) ∧
    ((Task.initCreate net uuidHex spawnOk image_url args download_path
        w).state.proc.children.all
        (fun c => c.stdout == Sink.pipe && c.stderr == Sink.pipe) = true) := by
  constructor
  · simp [runChrootProcess, RunResult.value?]
  · cases h : createFilesystemDir net uuidHex image_url download_path w.fs with
    | err fs' e =>
      simp [Task.initCreate, h, RunResult.state, hw]
    | ok fs' filesystem' =>
      cases spawnOk with
      | false => simp [Task.initCreate, h, runChrootProcess, RunResult.state, hw]
      | true => simp [Task.initCreate, h, runChrootProcess, RunResult.state, hw]

/-- C8 witness: a concrete launch and a concrete `Task` creation, both
piped on both streams. -/
theorem C8_witness :
    ((runChrootProcess true ⟨["jail"]⟩ ["echo", "1"] ⟨⟨[]⟩, [], 0⟩).value?.map
        (fun c => (c.stdout, c.stderr)) = some (Sink.pipe, Sink.pipe)) ∧
    ((Task.initCreate netGood "aa" true urlOrig ["echo", "1"] dpClient
        ⟨⟨[]⟩, ⟨⟨[]⟩, [], 0⟩⟩).state.proc.children.all
        (fun c => c.stdout == Sink.pipe && c.stderr == Sink.pipe) = true) :=
  C8_output_sinks_not_selectable netGood "aa" true urlOrig ⟨["jail"]⟩
    ["echo", "1"] ⟨⟨[]⟩, [], 0⟩ dpClient ⟨⟨[]⟩, ⟨⟨[]⟩, [], 0⟩⟩ rfl

/-- C2: the staged archive file is deleted iff extraction fully succeeds.
Given that the download itself succeeded (`hnet`): when the archive is
readable, `_create_filesystem_dir` returns normally and the staged file is
gone from the final filesystem state; when extraction fails, the
`tarError` propagates and the staged file is still present in the state at
the raise — nothing cleans it up. -/
theorem C2_staged_archive_deleted_iff_extracted (net : Net) (uuidHex : String)
    (image_url : Url) (download_path : FPath) (fs : FSState)
    (resp : HttpResponse) (hnet : net image_url = .ok resp) :
    (resp.body.valid = true →
      (createFilesystemDir net uuidHex image_url download_path fs).isOk = true ∧
      stagedArchivePath resp download_path ∉
        (createFilesystemDir net uuidHex image_url download_path fs).state.files) ∧
    (resp.body.valid = false →
      (createFilesystemDir net uuidHex image_url download_path fs).error? =
        some .tarError ∧
      stagedArchivePath resp download_path ∈
        (createFilesystemDir net uuidHex image_url download_path fs).state.files) := by
  constructor
  · intro hv
    constructor
    · simp [createFilesystemDir, hnet, hv, RunResult.isOk]
    · simp only [createFilesystemDir, hnet, hv, if_true, RunResult.state]
      exact not_mem_unlink _ _
  · intro hv
    constructor
    · simp [createFilesystemDir, hnet, hv, RunResult.error?]
    · simp only [createFilesystemDir, hnet, hv, RunResult.state]
      simp [stagedArchivePath, FSState.writeFile]

/-- C2 witness: with the readable archive the run succeeds and the staged
`rootfs.tar` is gone; with the broken archive the run raises `tarError`
and the staged `rootfs.tar` is still there. -/
theorem C2_witness :
    ((createFilesystemDir netGood "aa" urlOrig dpClient ⟨[]⟩).isOk = true ∧
      stagedArchivePath ⟨urlFinal, archGood⟩ dpClient ∉
        (createFilesystemDir netGood "aa" urlOrig dpClient ⟨[]⟩).state.files) ∧
    ((createFilesystemDir netBad "aa" urlOrig dpClient ⟨[]⟩).error? =
        some .tarError ∧
      stagedArchivePath ⟨urlFinal, archBad⟩ dpClient ∈
        (createFilesystemDir netBad "aa" urlOrig dpClient ⟨[]⟩).state.files) := by
  constructor
  · exact (C2_staged_archive_deleted_iff_extracted netGood "aa" urlOrig dpClient
      ⟨[]⟩ ⟨urlFinal, archGood⟩ rfl).1 rfl
  · exact (C2_staged_archive_deleted_iff_extracted netBad "aa" urlOrig dpClient
      ⟨[]⟩ ⟨urlFinal, archBad⟩ rfl).2 rfl

/-- A path two levels below `dp` never equals a path one level below it. -/
theorem joinpath_joinpath_ne (dp : FPath) (s e n : String) :
    (dp.joinpath s).joinpath e ≠ dp.joinpath n := by
  apply FPath.ne_of_length_ne
  simp [FPath.joinpath]

/-- C5: for a successful download (`hnet`) of a readable archive (`hv`),
`_create_filesystem_dir` returns `download_path/<stem><uuid>` where the
stem comes from the *final post-redirect* URL's file name: the directory
sits directly under the staging path, its base name is that stem followed
by the run's random suffix, a second extraction with a different suffix
(`hu`) yields a distinct directory, and after the second run every archive
member exists under both directories. -/
theorem C5_extraction_dir_naming (net : Net) (u1 u2 : String) (image_url : Url)
    (download_path : FPath) (fs : FSState) (resp : HttpResponse)
    (hnet : net image_url = .ok resp) (hv : resp.body.valid = true)
    (hu : u1 ≠ u2) :
    (createFilesystemDir net u1 image_url download_path fs).value? =
      some (extractionDir resp download_path u1) ∧
    (createFilesystemDir net u2 image_url download_path
        (createFilesystemDir net u1 image_url download_path fs).state).value? =
      some (extractionDir resp download_path u2) ∧
    (extractionDir resp download_path u1).parent = download_path ∧
    (extractionDir resp download_path u1).name =
      pyStem (pathOfString resp.url.path).name ++ u1 ∧
    extractionDir resp download_path u1 ≠ extractionDir resp download_path u2 ∧
    FSState.containsArchive
      (createFilesystemDir net u2 image_url download_path
        (createFilesystemDir net u1 image_url download_path fs).state).state
      (extractionDir resp download_path u1) resp.body = true ∧
    FSState.containsArchive
      (createFilesystemDir net u2 image_url download_path
        (createFilesystemDir net u1 image_url download_path fs).state).state
      (extractionDir resp download_path u2) resp.body = true := by
  have e1 : createFilesystemDir net u1 image_url download_path fs =
      .ok ((extractall (fs.writeFile (stagedArchivePath resp download_path))
              (extractionDir resp download_path u1) resp.body).unlink
            (stagedArchivePath resp download_path))
          (extractionDir resp download_path u1) := by
    simp [createFilesystemDir, hnet, hv, stagedArchivePath, extractionDir]
  have e2 : createFilesystemDir net u2 image_url download_path
      ((extractall (fs.writeFile (stagedArchivePath resp download_path))
          (extractionDir resp download_path u1) resp.body).unlink
        (stagedArchivePath resp download_path)) =
      .ok ((extractall
              (((extractall (fs.writeFile (stagedArchivePath resp download_path))
                  (extractionDir resp download_path u1) resp.body).unlink
                (stagedArchivePath resp download_path)).writeFile
                (stagedArchivePath resp download_path))
              (extractionDir resp download_path u2) resp.body).unlink
            (stagedArchivePath resp download_path))
          (extractionDir resp download_path u2) := by
    simp [createFilesystemDir, hnet, hv, stagedArchivePath, extractionDir]
  refine ⟨?_, ?_, ?_, ?_, ?_, ?_, ?_⟩
  · rw [e1]; rfl
  · rw [e1]
    simp only [RunResult.state]
    rw [e2]; rfl
  · simp [extractionDir, FPath.joinpath, FPath.parent]
  · simp [extractionDir, FPath.joinpath, FPath.name]
  · exact FPath.joinpath_ne_of_ne (fun hh => hu (string_append_cancel_left hh))
  · rw [e1]
    simp only [RunResult.state]
    rw [e2]
    simp only [RunResult.state, FSState.containsArchive, List.all_eq_true]
    intro e he
    rw [List.elem_iff]
    apply mem_unlink_of_mem _ (joinpath_joinpath_ne _ _ _ _)
    apply mem_extractall_of_mem
    apply List.mem_cons_of_mem
    apply mem_unlink_of_mem _ (joinpath_joinpath_ne _ _ _ _)
    exact mem_extractall_self _ _ he
  · rw [e1]
    simp only [RunResult.state]
    rw [e2]
    simp only [RunResult.state, FSState.containsArchive, List.all_eq_true]
    intro e he
    rw [List.elem_iff]
    apply mem_unlink_of_mem _ (joinpath_joinpath_ne _ _ _ _)
    exact mem_extractall_self _ _ he

/-- C5 witness: the requested URL ends in `filesystem.tar` but the redirect
lands on `rootfs.tar`, so the two runs (suffixes `"aa"`, `"bb"`) produce
the distinct directories `client/rootfsaa` and `client/rootfsbb`, both
directly under the staging path and both holding every archive member. -/
theorem C5_witness :
    (createFilesystemDir netGood "aa" urlOrig dpClient ⟨[]⟩).value? =
      some ⟨["client", "rootfsaa"]⟩ ∧
    (createFilesystemDir netGood "bb" urlOrig dpClient
        (createFilesystemDir netGood "aa" urlOrig dpClient ⟨[]⟩).state).value? =
      some ⟨["client", "rootfsbb"]⟩ ∧
    FPath.parent ⟨["client", "rootfsaa"]⟩ = dpClient ∧
    FPath.name ⟨["client", "rootfsaa"]⟩ = "rootfsaa" ∧
    (⟨["client", "rootfsaa"]⟩ : FPath) ≠ ⟨["client", "rootfsbb"]⟩ ∧
    FSState.containsArchive
      (createFilesystemDir netGood "bb" urlOrig dpClient
        (createFilesystemDir netGood "aa" urlOrig dpClient ⟨[]⟩).state).state
      ⟨["client", "rootfsaa"]⟩ archGood = true ∧
    FSState.containsArchive
      (createFilesystemDir netGood "bb" urlOrig dpClient
        (createFilesystemDir netGood "aa" urlOrig dpClient ⟨[]⟩).state).state
      ⟨["client", "rootfsbb"]⟩ archGood = true := by
  have h := C5_extraction_dir_naming netGood "aa" "bb" urlOrig dpClient ⟨[]⟩
      ⟨urlFinal, archGood⟩ rfl rfl (by decide)
  exact h

end Tasker
